import Mathlib

/-!
Verification of the `fatal-error` crate (`src/lib.rs`).

The crate defines an uninhabited error type `NeverErr` and a two-variant
wrapper `FatalError<E>` with a small algebra of combinators.  Each Rust
method is embedded below as a Lean function; Rust's `Result<T, Self>` is
embedded as `Except (FatalError E) T` (error channel = `Except.error`).
-/

/-- Embedding of `NeverErr`: `pub enum NeverErr {}` — an enum with no
variants, hence no values. -/
inductive NeverErr : Type where
  deriving DecidableEq

/-- Embedding of the `Display` impl for `NeverErr`: its body is an empty
match (`match *self {}`), unreachable for lack of any value. -/
def NeverErr.display : NeverErr → String := fun x => nomatch x

/-- Embedding of `FatalError<E>`: `Error(E)` is the non-fatal variant,
`Fatal(E)` the fatal one. -/
inductive FatalError (E : Type) : Type where
  | Error : E → FatalError E
  | Fatal : E → FatalError E
  deriving DecidableEq

namespace FatalError

variable {E E2 T : Type}

/-- `is_error`: `matches!(self, FatalError::Error(_))`. -/
def is_error : FatalError E → Bool
  | .Error _ => true
  | .Fatal _ => false

/-- `is_fatal`: `matches!(self, FatalError::Fatal(_))`. -/
def is_fatal : FatalError E → Bool
  | .Error _ => false
  | .Fatal _ => true

/-- `into_inner`: return the payload regardless of variant. -/
def into_inner : FatalError E → E
  | .Error x => x
  | .Fatal x => x

/-- `map`: apply `f` to the payload, preserving the variant. -/
def map (w : FatalError E) (f : E → E2) : FatalError E2 :=
  match w with
  | .Error x => .Error (f x)
  | .Fatal x => .Fatal (f x)

/-- `escalate`: `FatalError::Fatal(self.into_inner())`. -/
def escalate (w : FatalError E) : FatalError E := .Fatal w.into_inner

/-- `deescalate`: `FatalError::Error(self.into_inner())`. -/
def deescalate (w : FatalError E) : FatalError E := .Error w.into_inner

/-- `fatality`: `Ok(x)` on `Error(x)`, `Err(self)` on `Fatal(_)`. -/
def fatality : FatalError E → Except (FatalError E) E
  | .Error x => .ok x
  | .Fatal x => .error (.Fatal x)

/-- `recover`: `Ok(x)` on `Error(x)`, `Err(x)` on `Fatal(x)`. -/
def recover : FatalError E → Except E E
  | .Error x => .ok x
  | .Fatal x => .error x

/-- `map_error`: invoke `f` on a non-fatal payload, otherwise return the
wrapper unchanged in the error channel. -/
def map_error (w : FatalError E) (f : E → Except (FatalError E) T) :
    Except (FatalError E) T :=
  match w with
  | .Error x => f x
  | .Fatal x => .error (.Fatal x)

/-- `map_fatal`: invoke `f` on a fatal payload, otherwise return the
wrapper unchanged in the error channel. -/
def map_fatal (w : FatalError E) (f : E → Except (FatalError E) T) :
    Except (FatalError E) T :=
  match w with
  | .Error x => .error (.Error x)
  | .Fatal x => f x

/-- `then`: `f(self.into_inner())`, ignoring the tag.  (`then` is a Lean
keyword, hence the guillemets.) -/
def «then» (w : FatalError E) (f : E → Except (FatalError E) T) :
    Except (FatalError E) T :=
  f w.into_inner

/-- The `Display` impl for `FatalError<E>`: `"Error: {x}"` or
`"Fatal Error: {x}"`. -/
def display (toStr : E → String) : FatalError E → String
  | .Error x => "Error: " ++ toStr x
  | .Fatal x => "Fatal Error: " ++ toStr x

end FatalError

/-- C1: Tag-directed recovery dispatch.  `map_error` on `Error x` returns
`f x` directly (and the result on `Error` is exactly the closure's value,
so `f` contributes exactly once), while on `Fatal x` it returns the
original wrapper unchanged in the error channel for every `f` (so `f` is
never consulted); `map_fatal` is the exact mirror. -/
theorem map_error_map_fatal_dispatch {E T : Type} :
    (∀ (x : E) (f : E → Except (FatalError E) T),
      (FatalError.Error x).map_error f = f x) ∧
    (∀ (x : E) (f : E → Except (FatalError E) T),
      (FatalError.Fatal x).map_error f = Except.error (FatalError.Fatal x)) ∧
    (∀ (x : E) (f : E → Except (FatalError E) T),
      (FatalError.Fatal x).map_fatal f = f x) ∧
    (∀ (x : E) (f : E → Except (FatalError E) T),
      (FatalError.Error x).map_fatal f = Except.error (FatalError.Error x)) :=
  ⟨fun _ _ => rfl, fun _ _ => rfl, fun _ _ => rfl, fun _ _ => rfl⟩

/-- C2: `fatality` yields `Ok x` on `Error x` and, on `Fatal x`, yields
the original wrapper itself unchanged in the error channel — the error
still carries the `Fatal` tag and payload `x`. -/
theorem fatality_spec {E : Type} :
    (∀ x : E, (FatalError.Error x).fatality = Except.ok x) ∧
    (∀ x : E, (FatalError.Fatal x).fatality
        = Except.error (FatalError.Fatal x)) :=
  ⟨fun _ => rfl, fun _ => rfl⟩

/-- C3: `escalate` and `deescalate` are idempotent, force the `Fatal`
(resp. non-fatal) tag regardless of the prior tag, and preserve the
payload exactly. -/
theorem escalate_deescalate_spec {E : Type} :
    (∀ w : FatalError E, w.escalate.escalate = w.escalate) ∧
    (∀ w : FatalError E, w.deescalate.deescalate = w.deescalate) ∧
    (∀ w : FatalError E, w.escalate.is_fatal = true) ∧
    (∀ w : FatalError E, w.deescalate.is_error = true) ∧
    (∀ w : FatalError E, w.escalate.into_inner = w.into_inner) ∧
    (∀ w : FatalError E, w.deescalate.into_inner = w.into_inner) :=
  ⟨fun w => by cases w <;> rfl, fun w => by cases w <;> rfl,
   fun w => by cases w <;> rfl, fun w => by cases w <;> rfl,
   fun w => by cases w <;> rfl, fun w => by cases w <;> rfl⟩

/-- C4: `map` preserves the severity tag and transforms only the payload:
`(w.map f).is_fatal = w.is_fatal` and the payload of `w.map f` is `f`
applied to `w`'s payload; in particular
`Error "disk busy" |>.map String.length = Error 9`. -/
theorem map_preserves_tag {E E2 : Type} :
    (∀ (w : FatalError E) (f : E → E2), (w.map f).is_fatal = w.is_fatal) ∧
    (∀ (w : FatalError E) (f : E → E2),
      (w.map f).into_inner = f w.into_inner) ∧
    (FatalError.Error "disk busy").map String.length = FatalError.Error 9 :=
  ⟨fun w f => by cases w <;> rfl, fun w f => by cases w <;> rfl, rfl⟩

/-- C5: `then f` ignores the tag: for every wrapper `w` it equals `f`
applied to `w`'s payload, i.e. `into_inner` immediately followed by `f`,
with no short-circuiting on either tag. -/
theorem then_ignores_tag {E T : Type} :
    ∀ (w : FatalError E) (f : E → Except (FatalError E) T),
      w.then f = f w.into_inner :=
  fun _ _ => rfl

/-- C6: `recover` yields `Ok x` on `Error x` and `Err x` on `Fatal x` —
payload only, tag discarded; in particular
`(Fatal "oom").escalate.recover = Err "oom"`. -/
theorem recover_spec {E : Type} :
    (∀ x : E, (FatalError.Error x).recover = Except.ok x) ∧
    (∀ x : E, (FatalError.Fatal x).recover = Except.error x) ∧
    (FatalError.Fatal "oom").escalate.recover = Except.error "oom" :=
  ⟨fun _ => rfl, fun _ => rfl, rfl⟩

/-- C7: `is_error` and `is_fatal` are mutually exclusive and exhaustive:
`Error x` answers `is_error = true`, `is_fatal = false`, symmetrically
for `Fatal x`, and for every wrapper the two queries disagree. -/
theorem is_error_is_fatal_exclusive {E : Type} :
    (∀ x : E, (FatalError.Error x).is_error = true) ∧
    (∀ x : E, (FatalError.Error x).is_fatal = false) ∧
    (∀ x : E, (FatalError.Fatal x).is_fatal = true) ∧
    (∀ x : E, (FatalError.Fatal x).is_error = false) ∧
    (∀ w : FatalError E, w.is_error ≠ w.is_fatal) :=
  ⟨fun _ => rfl, fun _ => rfl, fun _ => rfl, fun _ => rfl,
   fun w => by cases w <;> simp [FatalError.is_error, FatalError.is_fatal]⟩

/-- C8: `into_inner` is total (a Lean function, defined on both variants)
and inverts both constructors: `(Error x).into_inner = x` and
`(Fatal x).into_inner = x`. -/
theorem into_inner_round_trip {E : Type} :
    (∀ x : E, (FatalError.Error x).into_inner = x) ∧
    (∀ x : E, (FatalError.Fatal x).into_inner = x) :=
  ⟨fun _ => rfl, fun _ => rfl⟩

/-- C9: `NeverErr` is uninhabited — no value of it can exist, so any
branch destructuring one (such as its `Display` impl's empty match) is
unreachable, and `FatalError NeverErr` is itself uninhabited. -/
theorem neverErr_uninhabited :
    (∀ x : NeverErr, False) ∧ (∀ w : FatalError NeverErr, False) :=
  ⟨(fun x => nomatch x), (fun w => nomatch w.into_inner)⟩

/-- C10: `map` satisfies the functor laws: mapping the identity is the
identity, and mapping `f` then `g` equals mapping `g ∘ f` — the tag is
never touched. -/
theorem map_functor_laws {E E2 E3 : Type} :
    (∀ w : FatalError E, w.map id = w) ∧
    (∀ (w : FatalError E) (f : E → E2) (g : E2 → E3),
      (w.map f).map g = w.map (g ∘ f)) :=
  ⟨fun w => by cases w <;> rfl, fun w f g => by cases w <;> rfl⟩
